import Mathlib

/-!
Shallow embedding of src/pdf_to_table_processor.py.

The pipeline is: ensure_directories, setup_anthropic_client,
convert_pdf_to_images, a per-page loop (image_to_base64 then
process_image_with_claude), save_to_csv, and a finally-scoped
cleanup_temp_files.  External collaborators (the JSON parser, the
rasterizer, the vision model, the filesystem) are modelled by an
explicit environment and a list of existing filesystem paths.
-/

/-- Python exception kinds raised along the pipeline.  `valueError` is the
missing-key error of setup_anthropic_client and the extra-field error of
csv.DictWriter; `attributeError` is what `item.setdefault` raises on a
non-dict; `typeError` is iteration over a non-iterable; `jsonDecodeError`
is a json.loads failure; `rasterError` stands for any exception out of
convert_from_path. -/
inductive PyError where
  | valueError
  | attributeError
  | typeError
  | jsonDecodeError
  | rasterError
deriving DecidableEq, Repr

/-- A parsed JSON value, the result of json.loads on the model response.
Numbers are modelled as integers; no claim depends on float semantics. -/
inductive JValue where
  | null
  | bool (b : Bool)
  | num (n : Int)
  | str (s : String)
  | arr (xs : List JValue)
  | obj (fields : List (String × JValue))

/-- The three required field names of the extraction contract
(line 153 and line 173 of the source). -/
def requiredKeys : List String := ["Commodity Name", "Qty", "UOM"]

/-- Python `k in item` on a dict modelled as an association list. -/
def hasKey (fields : List (String × JValue)) (k : String) : Bool :=
  fields.any (fun p => p.1 == k)

/-- Python `item.setdefault(k, v)`: inserts k at the end (dict insertion
order) when absent, leaves the dict unchanged when k is present. -/
def setdefault (fields : List (String × JValue)) (k : String) (v : JValue) :
    List (String × JValue) :=
  if hasKey fields k then fields else fields ++ [(k, v)]

/-- The three setdefault calls of lines 156-158: commodity name defaults
to the empty string, quantity to 1, unit of measure to BOX. -/
def fixItem (fields : List (String × JValue)) : List (String × JValue) :=
  setdefault
    (setdefault
      (setdefault fields "Commodity Name" (JValue.str ""))
      "Qty" (JValue.num 1))
    "UOM" (JValue.str "BOX")

/-- One iteration of the validation loop (lines 152-158).  A dict with all
three keys is left alone; a dict missing a key gets the setdefault chain;
a non-dict makes `item.setdefault` raise AttributeError. -/
def validateItem : JValue → Except PyError JValue
  | JValue.obj fields =>
      if requiredKeys.all (hasKey fields) then Except.ok (JValue.obj fields)
      else Except.ok (JValue.obj (fixItem fields))
  | _ => Except.error PyError.attributeError

/-- The validation loop over the elements of a parsed JSON array. -/
def validateList : List JValue → Except PyError (List JValue)
  | [] => Except.ok []
  | x :: xs =>
      match validateItem x with
      | Except.error e => Except.error e
      | Except.ok x' =>
          match validateList xs with
          | Except.error e => Except.error e
          | Except.ok xs' => Except.ok (x' :: xs')

/-- Lines 152-160 applied to an arbitrary parsed value, following Python
iteration semantics of `for item in results`.  A JSON array is validated
element by element.  A non-empty JSON object iterates over its keys, which
are strings, so the first key hits the non-dict branch (AttributeError);
an empty object iterates zero times and contributes no items downstream.
A non-empty string iterates over one-character strings (AttributeError);
the empty string iterates zero times.  null, booleans and numbers are not
iterable (TypeError).  The returned list holds the items that
`all_results.extend(results)` appends on line 208. -/
def validateResults : JValue → Except PyError (List JValue)
  | JValue.arr xs => validateList xs
  | JValue.obj [] => Except.ok []
  | JValue.obj (_ :: _) => Except.error PyError.attributeError
  | JValue.str s =>
      if s.isEmpty then Except.ok [] else Except.error PyError.attributeError
  | JValue.null => Except.error PyError.typeError
  | JValue.bool _ => Except.error PyError.typeError
  | JValue.num _ => Except.error PyError.typeError

/-- json.loads (line 149) followed by validation: a response that fails to
parse (modelled as `none`) raises json.JSONDecodeError. -/
def validateParsed : Option JValue → Except PyError (List JValue)
  | none => Except.error PyError.jsonDecodeError
  | some v => validateResults v

/-- Value stored under key k, if any (first occurrence). -/
def lookupKey (fields : List (String × JValue)) (k : String) : Option JValue :=
  (fields.find? (fun p => p.1 == k)).map (fun p => p.2)

/-- Whether a JSON value is a dict. -/
def isObj : JValue → Bool
  | JValue.obj _ => true
  | _ => false

/-- Whether a JSON value is null. -/
def isNull : JValue → Bool
  | JValue.null => true
  | _ => false

/-! ## Filesystem model

The filesystem is the list of paths that exist.  Only the paths the
pipeline itself touches are tracked: the two fixed directories, the
per-run temporary folder, and the output CSV file. -/

/-- os.makedirs(d, exist_ok=True), and also creation of a file by
open(..., "w"): the path is appended when absent, nothing happens and no
error is signalled when it already exists. -/
def addPath (fs : List String) (d : String) : List String :=
  if fs.contains d then fs else fs ++ [d]

/-- shutil.rmtree inside cleanup_temp_files: the path is removed when
present; the surrounding try/except turns any failure into a warning, and
os.path.exists guards the call, so the net effect is removal. -/
def removePath (fs : List String) (d : String) : List String :=
  fs.filter (fun q => q != d)

/-- ensure_directories (lines 28-32): makedirs on OUTPUT_DIR then
TEMP_DIR, each with exist_ok=True. -/
def ensureDirectories (fs : List String) : List String :=
  addPath (addPath fs "output") "temp"

/-- Line 58: the per-run temporary folder path, built from the
second-granularity timestamp string strftime("%Y%m%d_%H%M%S"). -/
def tempFolderName (ts : String) : String :=
  "temp/pdf_images_" ++ ts

/-- Python truthiness test `if not api_key` on line 46: os.getenv returns
None when the variable is absent, and the empty string is also falsy. -/
def apiKeyMissing (k : Option String) : Bool :=
  (k.getD "") == ""

/-! ## Environment of one run -/

/-- Everything external the run consumes: the credential from the
environment, the PDF path, whether convert_from_path succeeds, the page
count it returns, the parsed model response per 1-based page number
(`none` when the raw text is not valid JSON), and the two
strftime("%Y%m%d_%H%M%S") timestamps drawn when the temporary folder and
the CSV file are named. -/
structure Env where
  apiKey : Option String
  pdfPath : String
  rasterOk : Bool
  numPages : Nat
  responses : Nat → Option JValue
  tsImages : String
  tsCsv : String

/-- The temporary folder of a run (lines 57-58). -/
def tempFolder (env : Env) : String :=
  tempFolderName env.tsImages

/-- os.path.basename: the component after the last slash. -/
def basenameOf (p : String) : String :=
  (p.splitOn "/").getLastD p

/-- os.path.splitext(...)[0]: drops the extension after the last dot. -/
def stripExt (s : String) : String :=
  let parts := s.splitOn "."
  if parts.length ≤ 1 then s else String.intercalate "." parts.dropLast

/-- Line 170: the output CSV path built in save_to_csv. -/
def csvPath (env : Env) : String :=
  "output/" ++ stripExt (basenameOf env.pdfPath) ++ "_" ++ env.tsCsv ++ ".csv"

/-! ## CSV writer model

csv.DictWriter is constructed on line 173 with
fieldnames=['Commodity Name', 'Qty', 'UOM'] and the default
extrasaction='raise'.  writerows then rejects any dict holding a key
outside the field names with ValueError; a missing key is filled from the
default restval, so it is not an error; a non-dict row fails when the
writer asks for its keys. -/

/-- DictWriter handling of one row. -/
def rowCheck : JValue → Except PyError Unit
  | JValue.obj fields =>
      if fields.all (fun p => requiredKeys.contains p.1) then Except.ok ()
      else Except.error PyError.valueError
  | _ => Except.error PyError.attributeError

/-- writer.writerows(data) on line 175: rows are written in order and the
first bad row raises. -/
def writerowsCheck : List JValue → Except PyError Unit
  | [] => Except.ok ()
  | r :: rs =>
      match rowCheck r with
      | Except.error e => Except.error e
      | Except.ok _ => writerowsCheck rs

/-! ## Page loop and whole-run model -/

/-- The loop of lines 199-208: for page i the model is called (the call is
recorded even when the response turns out malformed), the response is
parsed and validated, and the items are appended to the accumulator.  Any
exception aborts the loop. -/
def extractLoop (env : Env) :
    Nat → Nat → List JValue → List Nat →
    Except PyError (List JValue) × List Nat
  | _, 0, acc, calls => (Except.ok acc, calls)
  | i, r + 1, acc, calls =>
      match validateParsed (env.responses i) with
      | Except.error e => (Except.error e, calls ++ [i])
      | Except.ok items => extractLoop env (i + 1) r (acc ++ items) (calls ++ [i])

/-- The whole page loop, pages 1 .. numPages. -/
def extractPages (env : Env) : Except PyError (List JValue) × List Nat :=
  extractLoop env 1 env.numPages [] []

/-- Observable outcome of one run: the returned path or the propagated
exception, the final filesystem, whether convert_from_path was invoked,
the ordered list of pages sent to the model, and whether save_to_csv
completed. -/
structure RunResult where
  result : Except PyError String
  fs : List String
  rasterCalled : Bool
  apiCalls : List Nat
  csvWritten : Bool

/-- process_pdf_document (lines 183-220).  ensure_directories runs first;
a missing credential raises before anything else is touched.  The
temporary folder is created (line 59) before convert_from_path runs
(line 61), so a rasterization failure leaves the folder behind: the
try/finally of lines 196-216 only begins after convert_pdf_to_images has
returned.  Inside it, the page loop feeds save_to_csv, whose open() call
creates the file before writerows can fail, and cleanup_temp_files runs
on every exit of the inner block. -/
def processPdfDocument (env : Env) (fs0 : List String) : RunResult :=
  let fs1 := ensureDirectories fs0
  if apiKeyMissing env.apiKey then
    ⟨Except.error PyError.valueError, fs1, false, [], false⟩
  else
    let tf := tempFolder env
    let fs2 := addPath fs1 tf
    if env.rasterOk then
      match extractPages env with
      | (Except.error e, calls) =>
          ⟨Except.error e, removePath fs2 tf, true, calls, false⟩
      | (Except.ok rows, calls) =>
          let fs3 := addPath fs2 (csvPath env)
          match writerowsCheck rows with
          | Except.error e =>
              ⟨Except.error e, removePath fs3 tf, true, calls, false⟩
          | Except.ok _ =>
              ⟨Except.ok (csvPath env), removePath fs3 tf, true, calls, true⟩
    else
      ⟨Except.error PyError.rasterError, fs2, true, [], false⟩

/-! ## Helper lemmas on the repair step -/

theorem hasKey_setdefault_self (f : List (String × JValue)) (k : String)
    (v : JValue) : hasKey (setdefault f k v) k = true := by
  rw [setdefault]
  split
  · assumption
  · have : (f ++ [(k, v)]).any (fun p => p.1 == k) = true := by
      rw [List.any_append, Bool.or_eq_true]
      refine Or.inr ?_
      simp
    exact this

theorem hasKey_setdefault_mono (f : List (String × JValue)) (k k' : String)
    (v : JValue) (h : hasKey f k = true) :
    hasKey (setdefault f k' v) k = true := by
  rw [setdefault]
  split
  · exact h
  · have : (f ++ [(k', v)]).any (fun p => p.1 == k) = true := by
      rw [List.any_append, Bool.or_eq_true]
      exact Or.inl h
    exact this

theorem fixItem_complete (f : List (String × JValue)) :
    requiredKeys.all (hasKey (fixItem f)) = true := by
  have h1 : hasKey (fixItem f) "Commodity Name" = true := by
    apply hasKey_setdefault_mono
    apply hasKey_setdefault_mono
    apply hasKey_setdefault_self
  have h2 : hasKey (fixItem f) "Qty" = true := by
    apply hasKey_setdefault_mono
    apply hasKey_setdefault_self
  have h3 : hasKey (fixItem f) "UOM" = true := by
    apply hasKey_setdefault_self
  simp [requiredKeys, h1, h2, h3]

theorem validateItem_ok_complete (x y : JValue)
    (h : validateItem x = Except.ok y) :
    ∃ fields, y = JValue.obj fields ∧ requiredKeys.all (hasKey fields) = true := by
  cases x with
  | obj fields =>
      by_cases hc : requiredKeys.all (hasKey fields) = true
      · refine ⟨fields, ?_, hc⟩
        simp [validateItem, hc] at h
        exact h.symm
      · refine ⟨fixItem fields, ?_, fixItem_complete fields⟩
        simp [validateItem, hc] at h
        exact h.symm
  | null => simp [validateItem] at h
  | bool b => simp [validateItem] at h
  | num n => simp [validateItem] at h
  | str s => simp [validateItem] at h
  | arr xs => simp [validateItem] at h

theorem validateList_ok_complete (xs items : List JValue)
    (h : validateList xs = Except.ok items) :
    ∀ it ∈ items, ∃ fields, it = JValue.obj fields ∧
      requiredKeys.all (hasKey fields) = true := by
  induction xs generalizing items with
  | nil =>
      simp [validateList] at h
      subst h
      intro it hit
      simp at hit
  | cons x xs ih =>
      intro it hit
      cases hx : validateItem x with
      | error e => simp [validateList, hx] at h
      | ok x' =>
          cases hxs : validateList xs with
          | error e => simp [validateList, hx, hxs] at h
          | ok xs' =>
              simp [validateList, hx, hxs] at h
              subst h
              rcases List.mem_cons.mp hit with hfst | hrest
              · subst hfst
                exact validateItem_ok_complete x it hx
              · exact ih xs' hxs it hrest

/-! ## Helper lemmas on the filesystem model -/

theorem mem_addPath_self (fs : List String) (d : String) : d ∈ addPath fs d := by
  rw [addPath]
  split
  · next h => simpa using h
  · simp

theorem mem_addPath_mono (fs : List String) (d x : String) (h : x ∈ fs) :
    x ∈ addPath fs d := by
  rw [addPath]
  split
  · exact h
  · exact List.mem_append_left _ h

theorem addPath_of_mem (fs : List String) (d : String) (h : d ∈ fs) :
    addPath fs d = fs := by
  have hc : fs.contains d = true := by simpa using h
  rw [addPath, if_pos hc]

/-! ## Claim theorems: repair step and directory provisioning -/

/-- A row whose three required fields are all bound to JSON null: every
key is present, so the validation guard of line 153 passes and no
setdefault fires. -/
def itemC1fields : List (String × JValue) :=
  [("Commodity Name", JValue.null), ("Qty", JValue.null), ("UOM", JValue.null)]

/-- The row above as a JSON value. -/
def itemC1 : JValue := JValue.obj itemC1fields

/-- C1 counterexample: the Page Extractor returns a record whose Qty field
is bound to null, so the returned record is not non-null in every field,
refuting the claim as stated.  The guard on line 153 only tests key
membership and setdefault only fills absent keys, so a null value under a
present key flows through unchanged. -/
theorem c1_counterexample :
    validateResults (JValue.arr [itemC1]) = Except.ok [itemC1] ∧
    lookupKey itemC1fields "Qty" = some JValue.null ∧
    isNull JValue.null = true :=
  ⟨rfl, rfl, rfl⟩

/-- C1 (amended): every record in a list returned by the Page Extractor
validation step is a dict in which all three keys Commodity Name, Qty and
UOM are present (absent keys having been filled with their defaults); the
bound values themselves may be null. -/
theorem c1_returned_records_have_all_keys (v : JValue) (items : List JValue)
    (h : validateResults v = Except.ok items) :
    ∀ it ∈ items, ∃ fields, it = JValue.obj fields ∧
      requiredKeys.all (hasKey fields) = true := by
  cases v with
  | arr xs => exact validateList_ok_complete xs items h
  | obj fields =>
      cases fields with
      | nil =>
          simp [validateResults] at h
          subst h
          intro it hit
          simp at hit
      | cons p ps => simp [validateResults] at h
  | str s =>
      by_cases hs : s.isEmpty
      · simp [validateResults, hs] at h
        subst h
        intro it hit
        simp at hit
      · simp [validateResults, hs] at h
  | null => simp [validateResults] at h
  | bool b => simp [validateResults] at h
  | num n => simp [validateResults] at h

/-- C1 witness: the amended theorem applied to a concrete one-row
response in which the Qty key is absent and gets filled. -/
theorem c1_witness :
    ∃ fields,
      JValue.obj (fixItem [("Commodity Name", JValue.str "Widget")]) =
        JValue.obj fields ∧
      requiredKeys.all (hasKey fields) = true :=
  c1_returned_records_have_all_keys
    (JValue.arr [JValue.obj [("Commodity Name", JValue.str "Widget")]])
    [JValue.obj (fixItem [("Commodity Name", JValue.str "Widget")])] rfl
    (JValue.obj (fixItem [("Commodity Name", JValue.str "Widget")]))
    (List.mem_singleton_self _)

/-- C6: applying the row-repair step (the setdefault chain of lines
156-158) to a record that already has all three fields leaves the record
unchanged, so default substitution is idempotent. -/
theorem c6_fix_item_noop (fields : List (String × JValue))
    (h1 : hasKey fields "Commodity Name" = true)
    (h2 : hasKey fields "Qty" = true)
    (h3 : hasKey fields "UOM" = true) :
    fixItem fields = fields := by
  simp [fixItem, setdefault, h1, h2, h3]

/-- A concrete complete record. -/
def completeFields : List (String × JValue) :=
  [("Commodity Name", JValue.str "Widget"), ("Qty", JValue.num 5),
    ("UOM", JValue.str "BOX")]

/-- C6 witness: the repair step is a no-op on a concrete complete row. -/
theorem c6_witness : fixItem completeFields = completeFields :=
  c6_fix_item_noop completeFields (by decide) (by decide) (by decide)

/-- C7: ensure_directories creates each absent directory, is a no-op that
signals no error when both directories already exist, and is idempotent
under repetition. -/
theorem c7_ensure_directories_spec (fs : List String) :
    ("output" ∈ ensureDirectories fs ∧ "temp" ∈ ensureDirectories fs) ∧
    (("output" ∈ fs ∧ "temp" ∈ fs) → ensureDirectories fs = fs) ∧
    ensureDirectories (ensureDirectories fs) = ensureDirectories fs := by
  have hOut : "output" ∈ ensureDirectories fs :=
    mem_addPath_mono _ _ _ (mem_addPath_self fs "output")
  have hTemp : "temp" ∈ ensureDirectories fs :=
    mem_addPath_self _ "temp"
  refine ⟨⟨hOut, hTemp⟩, ?_, ?_⟩
  · rintro ⟨ho, ht⟩
    rw [ensureDirectories, addPath_of_mem fs "output" ho,
      addPath_of_mem fs "temp" ht]
  · have hstep : ensureDirectories (ensureDirectories fs) =
        addPath (addPath (ensureDirectories fs) "output") "temp" := rfl
    rw [hstep, addPath_of_mem _ "output" hOut, addPath_of_mem _ "temp" hTemp]

/-- C7 witness: calling the provisioner on a filesystem where both
directories already exist changes nothing. -/
theorem c7_witness : ensureDirectories ["output", "temp"] = ["output", "temp"] :=
  (c7_ensure_directories_spec ["output", "temp"]).2.1 ⟨by decide, by decide⟩

/-! ## Helper lemmas on the page loop -/

theorem extractLoop_all_ok (env : Env) (batch : Nat → List JValue) :
    ∀ (r i : Nat) (acc : List JValue) (calls : List Nat),
    (∀ j, i ≤ j → j < i + r →
      validateParsed (env.responses j) = Except.ok (batch j)) →
    extractLoop env i r acc calls =
      (Except.ok (acc ++ ((List.range' i r).map batch).flatten),
        calls ++ List.range' i r) := by
  intro r
  induction r with
  | zero =>
      intro i acc calls _
      simp [extractLoop]
  | succ r ih =>
      intro i acc calls hall
      have hi : validateParsed (env.responses i) = Except.ok (batch i) :=
        hall i (Nat.le_refl i) (by omega)
      have hrec := ih (i + 1) (acc ++ batch i) (calls ++ [i])
        (fun j hj1 hj2 => hall j (by omega) (by omega))
      simp only [extractLoop, hi]
      rw [hrec, List.range'_succ]
      simp [List.append_assoc]

theorem extractLoop_ok_pages (env : Env) :
    ∀ (r i : Nat) (acc : List JValue) (calls : List Nat)
      (rows : List JValue) (c : List Nat),
    extractLoop env i r acc calls = (Except.ok rows, c) →
    ∀ j, i ≤ j → j < i + r →
      ∃ items, validateParsed (env.responses j) = Except.ok items := by
  intro r
  induction r with
  | zero =>
      intro i acc calls rows c _ j hij hjr
      omega
  | succ r ih =>
      intro i acc calls rows c h j hij hjr
      cases hv : validateParsed (env.responses i) with
      | error e => simp [extractLoop, hv] at h
      | ok items =>
          by_cases hji : j = i
          · subst hji
            exact ⟨items, hv⟩
          · have h' : extractLoop env (i + 1) r (acc ++ items) (calls ++ [i]) =
                (Except.ok rows, c) := by
              simpa [extractLoop, hv] using h
            exact ih (i + 1) _ _ rows c h' j (by omega) (by omega)

theorem extractLoop_calls_segment (env : Env) :
    ∀ (r i : Nat) (acc : List JValue) (calls : List Nat),
    ∃ j, j ≤ r ∧ (extractLoop env i r acc calls).2 = calls ++ List.range' i j := by
  intro r
  induction r with
  | zero =>
      intro i acc calls
      exact ⟨0, Nat.le_refl 0, by simp [extractLoop]⟩
  | succ r ih =>
      intro i acc calls
      cases hv : validateParsed (env.responses i) with
      | error e =>
          refine ⟨1, by omega, ?_⟩
          simp [extractLoop, hv, List.range'_one]
      | ok items =>
          obtain ⟨j, hj, hcalls⟩ := ih (i + 1) (acc ++ items) (calls ++ [i])
          refine ⟨j + 1, by omega, ?_⟩
          have hstep : extractLoop env i (r + 1) acc calls =
              extractLoop env (i + 1) r (acc ++ items) (calls ++ [i]) := by
            simp [extractLoop, hv]
          rw [hstep, hcalls, List.range'_succ]
          simp

theorem extractPages_error_of_bad_page (env : Env) (j : Nat)
    (h1 : 1 ≤ j) (h2 : j ≤ env.numPages)
    (hbad : ∀ items, validateParsed (env.responses j) ≠ Except.ok items) :
    ∃ e c, extractPages env = (Except.error e, c) := by
  rcases hE : extractPages env with ⟨res, c⟩
  cases res with
  | ok rows =>
      obtain ⟨items, hv⟩ :=
        extractLoop_ok_pages env env.numPages 1 [] [] rows c hE j h1 (by omega)
      exact absurd hv (hbad items)
  | error e => exact ⟨e, c, rfl⟩

/-! ## Helper lemmas on the whole run -/

theorem not_mem_removePath_self (fs : List String) (d : String) :
    d ∉ removePath fs d := by
  simp [removePath, List.mem_filter]

theorem run_key_missing (env : Env) (fs0 : List String)
    (hk : apiKeyMissing env.apiKey = true) :
    processPdfDocument env fs0 =
      ⟨Except.error PyError.valueError, ensureDirectories fs0, false, [], false⟩ := by
  simp [processPdfDocument, hk]

theorem run_raster_failed (env : Env) (fs0 : List String)
    (hk : apiKeyMissing env.apiKey = false) (hr : env.rasterOk = false) :
    processPdfDocument env fs0 =
      ⟨Except.error PyError.rasterError,
        addPath (ensureDirectories fs0) (tempFolder env), true, [], false⟩ := by
  simp [processPdfDocument, hk, hr]

theorem run_extract_error (env : Env) (fs0 : List String)
    (hk : apiKeyMissing env.apiKey = false) (hr : env.rasterOk = true)
    (e : PyError) (calls : List Nat)
    (hE : extractPages env = (Except.error e, calls)) :
    processPdfDocument env fs0 =
      ⟨Except.error e,
        removePath (addPath (ensureDirectories fs0) (tempFolder env))
          (tempFolder env),
        true, calls, false⟩ := by
  simp [processPdfDocument, hk, hr, hE]

theorem run_write_error (env : Env) (fs0 : List String)
    (hk : apiKeyMissing env.apiKey = false) (hr : env.rasterOk = true)
    (rows : List JValue) (calls : List Nat)
    (hE : extractPages env = (Except.ok rows, calls))
    (e : PyError) (hw : writerowsCheck rows = Except.error e) :
    processPdfDocument env fs0 =
      ⟨Except.error e,
        removePath
          (addPath (addPath (ensureDirectories fs0) (tempFolder env))
            (csvPath env))
          (tempFolder env),
        true, calls, false⟩ := by
  simp [processPdfDocument, hk, hr, hE, hw]

theorem run_success (env : Env) (fs0 : List String)
    (hk : apiKeyMissing env.apiKey = false) (hr : env.rasterOk = true)
    (rows : List JValue) (calls : List Nat)
    (hE : extractPages env = (Except.ok rows, calls))
    (hw : writerowsCheck rows = Except.ok ()) :
    processPdfDocument env fs0 =
      ⟨Except.ok (csvPath env),
        removePath
          (addPath (addPath (ensureDirectories fs0) (tempFolder env))
            (csvPath env))
          (tempFolder env),
        true, calls, true⟩ := by
  simp [processPdfDocument, hk, hr, hE, hw]

/-! ## Claim theorems: whole-run behavior -/

/-- A run whose rasterization fails after the temporary folder was
created: convert_from_path raises on line 61, after os.makedirs on
line 59. -/
def envC2 : Env :=
  { apiKey := some "k", pdfPath := "doc.pdf", rasterOk := false,
    numPages := 0, responses := fun _ => none,
    tsImages := "20240101_000000", tsCsv := "20240101_000000" }

/-- C2 counterexample: when rasterization fails, the run raises and the
timestamped temporary folder created for the run still exists at the end,
because the try/finally of lines 196-216 only begins after
convert_pdf_to_images has returned, refuting guaranteed cleanup on every
exit path. -/
theorem c2_counterexample :
    (processPdfDocument envC2 []).result = Except.error PyError.rasterError ∧
    tempFolder envC2 ∈ (processPdfDocument envC2 []).fs :=
  ⟨rfl, by decide⟩

/-- C2 (amended): on every run in which the credential is present and
rasterization succeeds, the temporary folder does not exist when the run
ends, whatever happens afterwards; a rasterization failure, however, can
leave the folder behind. -/
theorem c2_cleanup_after_rasterization (env : Env) (fs0 : List String)
    (hk : apiKeyMissing env.apiKey = false) (hr : env.rasterOk = true) :
    tempFolder env ∉ (processPdfDocument env fs0).fs := by
  rcases hE : extractPages env with ⟨res, calls⟩
  cases res with
  | error e =>
      rw [run_extract_error env fs0 hk hr e calls hE]
      exact not_mem_removePath_self _ _
  | ok rows =>
      cases hw : writerowsCheck rows with
      | error e =>
          rw [run_write_error env fs0 hk hr rows calls hE e hw]
          exact not_mem_removePath_self _ _
      | ok u =>
          cases u
          rw [run_success env fs0 hk hr rows calls hE hw]
          exact not_mem_removePath_self _ _

/-- A run that rasterizes an empty document and succeeds end to end. -/
def envC2ok : Env :=
  { apiKey := some "k", pdfPath := "doc.pdf", rasterOk := true,
    numPages := 0, responses := fun _ => none,
    tsImages := "20240101_000000", tsCsv := "20240101_000001" }

/-- C2 witness: the amended cleanup guarantee on a concrete successful
run. -/
theorem c2_witness : tempFolder envC2ok ∉ (processPdfDocument envC2ok []).fs :=
  c2_cleanup_after_rasterization envC2ok [] rfl rfl

/-- C5: a missing credential makes the run fail with the ValueError of
line 47 before any I/O: rasterization is never invoked, no model call is
made, the filesystem holds exactly the provisioned directories, and no
CSV is written. -/
theorem c5_missing_credential_fails_before_io (env : Env) (fs0 : List String)
    (hk : env.apiKey = none) :
    (processPdfDocument env fs0).result = Except.error PyError.valueError ∧
    (processPdfDocument env fs0).rasterCalled = false ∧
    (processPdfDocument env fs0).apiCalls = [] ∧
    (processPdfDocument env fs0).fs = ensureDirectories fs0 ∧
    (processPdfDocument env fs0).csvWritten = false := by
  have hmiss : apiKeyMissing env.apiKey = true := by rw [hk]; rfl
  rw [run_key_missing env fs0 hmiss]
  exact ⟨rfl, rfl, rfl, rfl, rfl⟩

/-- A run with no credential in the environment. -/
def envC5 : Env :=
  { apiKey := none, pdfPath := "doc.pdf", rasterOk := true,
    numPages := 3, responses := fun _ => none,
    tsImages := "t1", tsCsv := "t2" }

/-- C5 witness: the fatal-before-io property on a concrete run with no
credential. -/
theorem c5_witness :
    (processPdfDocument envC5 []).result = Except.error PyError.valueError ∧
    (processPdfDocument envC5 []).rasterCalled = false ∧
    (processPdfDocument envC5 []).apiCalls = [] ∧
    (processPdfDocument envC5 []).fs = ensureDirectories [] ∧
    (processPdfDocument envC5 []).csvWritten = false :=
  c5_missing_credential_fails_before_io envC5 [] rfl

/-- C3: if the model response of some page in range fails to parse as
JSON, the run ends in an error, no CSV is written, and the model calls
made are the pages 1..j for some j in order: no page is retried and none
is skipped. -/
theorem c3_parse_failure_aborts_run (env : Env) (fs0 : List String) (i : Nat)
    (hk : apiKeyMissing env.apiKey = false) (hr : env.rasterOk = true)
    (h1 : 1 ≤ i) (h2 : i ≤ env.numPages)
    (hbad : env.responses i = none) :
    (∃ e, (processPdfDocument env fs0).result = Except.error e) ∧
    (processPdfDocument env fs0).csvWritten = false ∧
    ∃ j, (processPdfDocument env fs0).apiCalls = List.range' 1 j ∧
      (processPdfDocument env fs0).apiCalls.Nodup := by
  have hbad' : ∀ items, validateParsed (env.responses i) ≠ Except.ok items := by
    intro items hcon
    rw [hbad] at hcon
    exact Except.noConfusion hcon
  obtain ⟨e, calls, hE⟩ := extractPages_error_of_bad_page env i h1 h2 hbad'
  have hrun := run_extract_error env fs0 hk hr e calls hE
  obtain ⟨j, _, hcalls⟩ := extractLoop_calls_segment env env.numPages 1 [] []
  have hcalls' : calls = List.range' 1 j := by
    have hpair : (extractPages env).2 = [] ++ List.range' 1 j := hcalls
    rw [hE] at hpair
    simpa using hpair
  rw [hrun]
  refine ⟨⟨e, rfl⟩, rfl, j, hcalls', ?_⟩
  show List.Nodup calls
  rw [hcalls']
  exact List.nodup_range' 1 j

/-- A 2-page run whose second page returns syntactically invalid text. -/
def envC3 : Env :=
  { apiKey := some "k", pdfPath := "doc.pdf", rasterOk := true,
    numPages := 2,
    responses := fun i => if i = 1 then some (JValue.arr []) else none,
    tsImages := "t1", tsCsv := "t2" }

/-- C3 witness: the abort property on a concrete run whose page 2
response is unparseable. -/
theorem c3_witness :
    (∃ e, (processPdfDocument envC3 []).result = Except.error e) ∧
    (processPdfDocument envC3 []).csvWritten = false ∧
    ∃ j, (processPdfDocument envC3 []).apiCalls = List.range' 1 j ∧
      (processPdfDocument envC3 []).apiCalls.Nodup :=
  c3_parse_failure_aborts_run envC3 [] 2 rfl rfl (by decide) (by decide) rfl

/-- C4: when every page in range validates to its batch, the page loop
returns exactly the concatenation of the batches in ascending page order
(each batch kept in its own order), the model is called once per page in
ascending order, and the length of the combined table is the sum of the
batch lengths. -/
theorem c4_output_is_ordered_concatenation (env : Env)
    (batch : Nat → List JValue)
    (hall : ∀ i, 1 ≤ i → i ≤ env.numPages →
      validateParsed (env.responses i) = Except.ok (batch i)) :
    extractPages env =
      (Except.ok ((List.range' 1 env.numPages).map batch).flatten,
        List.range' 1 env.numPages) ∧
    (((List.range' 1 env.numPages).map batch).flatten).length =
      ((List.range' 1 env.numPages).map (fun i => (batch i).length)).sum := by
  constructor
  · have h := extractLoop_all_ok env batch env.numPages 1 [] []
      (fun j hj1 hj2 => hall j hj1 (by omega))
    simpa [extractPages] using h
  · rw [List.length_flatten, List.map_map]
    rfl

/-- A complete row as the model returns it for page 1 of the spec
scenario. -/
def rowA : JValue :=
  JValue.obj [("Commodity Name", JValue.str "Widget"), ("Qty", JValue.num 5),
    ("UOM", JValue.str "BOX")]

/-- The repaired page-2 row of the spec scenario, after defaults fill the
missing Qty and UOM fields. -/
def rowB : JValue :=
  JValue.obj (fixItem [("Commodity Name", JValue.str "Gadget")])

/-- The 2-page run of the spec scenario: page 1 returns a complete row,
page 2 a row missing Qty and UOM. -/
def envC4 : Env :=
  { apiKey := some "k", pdfPath := "doc.pdf", rasterOk := true,
    numPages := 2,
    responses := fun i =>
      if i = 1 then some (JValue.arr [rowA])
      else if i = 2 then
        some (JValue.arr [JValue.obj [("Commodity Name", JValue.str "Gadget")]])
      else none,
    tsImages := "t1", tsCsv := "t2" }

/-- The per-page batches of the scenario. -/
def batchC4 : Nat → List JValue :=
  fun i => if i = 1 then [rowA] else [rowB]

/-- C4 witness: the concatenation property on the concrete 2-page
scenario. -/
theorem c4_witness :
    extractPages envC4 =
      (Except.ok ((List.range' 1 envC4.numPages).map batchC4).flatten,
        List.range' 1 envC4.numPages) ∧
    (((List.range' 1 envC4.numPages).map batchC4).flatten).length =
      ((List.range' 1 envC4.numPages).map (fun i => (batchC4 i).length)).sum :=
  c4_output_is_ordered_concatenation envC4 batchC4 (by
    intro i h1 h2
    have h2' : i ≤ 2 := h2
    interval_cases i
    · rfl
    · rfl)

/-- One run at a given second. -/
def envC8A : Env :=
  { apiKey := some "k", pdfPath := "a.pdf", rasterOk := true,
    numPages := 0, responses := fun _ => none,
    tsImages := "20240101_120000", tsCsv := "20240101_120000" }

/-- A different run, on a different document, started within the same
second. -/
def envC8B : Env :=
  { apiKey := some "k", pdfPath := "b.pdf", rasterOk := true,
    numPages := 0, responses := fun _ => none,
    tsImages := "20240101_120000", tsCsv := "20240101_120000" }

/-- C8 counterexample: two distinct runs whose strftime("%Y%m%d_%H%M%S")
timestamps fall in the same second get the very same temporary folder
path, refuting the claim that the folder names never collide. -/
theorem c8_counterexample :
    envC8A ≠ envC8B ∧ tempFolder envC8A = tempFolder envC8B := by
  constructor
  · intro h
    exact absurd (congrArg Env.pdfPath h) (by decide)
  · rfl

/-- C8 (amended): runs whose timestamps differ as strings get distinct
temporary folders; only runs started within the same second (equal
timestamp strings) collide. -/
theorem c8_distinct_timestamps (t1 t2 : String) (h : t1 ≠ t2) :
    tempFolderName t1 ≠ tempFolderName t2 := by
  intro he
  apply h
  simp only [tempFolderName] at he
  have hd : ("temp/pdf_images_" ++ t1).data = ("temp/pdf_images_" ++ t2).data :=
    congrArg String.data he
  rw [String.data_append, String.data_append] at hd
  exact String.ext (List.append_cancel_left hd)

/-- C8 witness: two timestamps one second apart give distinct folders. -/
theorem c8_witness :
    tempFolderName "20240101_120000" ≠ tempFolderName "20240101_120001" :=
  c8_distinct_timestamps "20240101_120000" "20240101_120001" (by decide)

/-! ## Helper lemmas on the CSV writer and non-dict rows -/

theorem rowCheck_error_of_extra_key (fields : List (String × JValue))
    (p : String × JValue) (hp : p ∈ fields)
    (hextra : requiredKeys.contains p.1 = false) :
    rowCheck (JValue.obj fields) = Except.error PyError.valueError := by
  have hall : fields.all (fun q => requiredKeys.contains q.1) = false := by
    cases hb : fields.all (fun q => requiredKeys.contains q.1)
    · rfl
    · have hq := List.all_eq_true.mp hb p hp
      rw [hextra] at hq
      exact absurd hq (by simp)
  have hne : ¬(fields.all (fun q => requiredKeys.contains q.1) = true) := by
    rw [hall]
    simp
  show (if fields.all (fun q => requiredKeys.contains q.1) then Except.ok ()
      else Except.error PyError.valueError) = Except.error PyError.valueError
  exact if_neg hne

theorem writerows_error_of_bad_row (rows : List JValue) (r : JValue)
    (hr : r ∈ rows) (e0 : PyError) (hrc : rowCheck r = Except.error e0) :
    ∃ e, writerowsCheck rows = Except.error e := by
  induction rows with
  | nil => simp at hr
  | cons a rs ih =>
      cases hra : rowCheck a with
      | error e' => exact ⟨e', by simp [writerowsCheck, hra]⟩
      | ok u =>
          rcases List.mem_cons.mp hr with h | h
          · subst h
            rw [hra] at hrc
            exact Except.noConfusion hrc
          · obtain ⟨e, he⟩ := ih h
            exact ⟨e, by simp [writerowsCheck, hra, he]⟩

theorem validateItem_nonobj (x : JValue) (h : isObj x = false) :
    validateItem x = Except.error PyError.attributeError := by
  cases x with
  | obj fields => simp [isObj] at h
  | null => rfl
  | bool b => rfl
  | num n => rfl
  | str s => rfl
  | arr xs => rfl

theorem validateList_error_of_nonobj (xs : List JValue) (x : JValue)
    (hx : x ∈ xs) (hnobj : isObj x = false) :
    ∃ e, validateList xs = Except.error e := by
  induction xs with
  | nil => simp at hx
  | cons a rest ih =>
      rcases List.mem_cons.mp hx with h | h
      · subst h
        exact ⟨PyError.attributeError,
          by simp [validateList, validateItem_nonobj x hnobj]⟩
      · cases hva : validateItem a with
        | error e => exact ⟨e, by simp [validateList, hva]⟩
        | ok a' =>
            obtain ⟨e, he⟩ := ih h
            exact ⟨e, by simp [validateList, hva, he]⟩

/-! ## Claim theorems: CSV writer rejection and non-dict rows -/

/-- C9: with the credential present, rasterization succeeding and every
page validating to its batch (extraction fully succeeds), a row among the
extracted rows that carries a key outside the three DictWriter field
names makes the write step raise, so the whole run ends in an error and
the CSV write never completes. -/
theorem c9_extra_key_fails_write (env : Env) (fs0 : List String)
    (batch : Nat → List JValue)
    (hk : apiKeyMissing env.apiKey = false) (hr : env.rasterOk = true)
    (hall : ∀ i, 1 ≤ i → i ≤ env.numPages →
      validateParsed (env.responses i) = Except.ok (batch i))
    (fields : List (String × JValue)) (p : String × JValue)
    (hrow : JValue.obj fields ∈ ((List.range' 1 env.numPages).map batch).flatten)
    (hp : p ∈ fields) (hextra : requiredKeys.contains p.1 = false) :
    ∃ e, (processPdfDocument env fs0).result = Except.error e ∧
      (processPdfDocument env fs0).csvWritten = false := by
  have hE : extractPages env =
      (Except.ok ((List.range' 1 env.numPages).map batch).flatten,
        List.range' 1 env.numPages) := by
    have h := extractLoop_all_ok env batch env.numPages 1 [] []
      (fun j hj1 hj2 => hall j hj1 (by omega))
    simpa [extractPages] using h
  have hrc := rowCheck_error_of_extra_key fields p hp hextra
  obtain ⟨e, hw⟩ := writerows_error_of_bad_row _ _ hrow PyError.valueError hrc
  rw [run_write_error env fs0 hk hr _ _ hE e hw]
  exact ⟨e, rfl, rfl⟩

/-- A row carrying all three required fields plus an extra key. -/
def rowC9fields : List (String × JValue) :=
  [("Commodity Name", JValue.str "W"), ("Qty", JValue.num 1),
    ("UOM", JValue.str "BOX"), ("Extra", JValue.num 2)]

/-- The row above as a JSON value. -/
def rowC9 : JValue := JValue.obj rowC9fields

/-- A 1-page run whose single extracted row has the extra key. -/
def envC9 : Env :=
  { apiKey := some "k", pdfPath := "doc.pdf", rasterOk := true,
    numPages := 1, responses := fun _ => some (JValue.arr [rowC9]),
    tsImages := "t1", tsCsv := "t2" }

/-- The per-page batches of that run. -/
def batchC9 : Nat → List JValue := fun _ => [rowC9]

/-- C9 witness: the write-rejection property on the concrete 1-page run
with an extra key. -/
theorem c9_witness :
    ∃ e, (processPdfDocument envC9 []).result = Except.error e ∧
      (processPdfDocument envC9 []).csvWritten = false :=
  c9_extra_key_fails_write envC9 [] batchC9 rfl rfl
    (fun _ _ _ => rfl)
    rowC9fields ("Extra", JValue.num 2)
    (List.mem_singleton_self rowC9)
    (List.mem_cons_of_mem _ (List.mem_cons_of_mem _
      (List.mem_cons_of_mem _ (List.mem_cons_self _ _))))
    rfl

/-- C10: a parsed array holding a non-dict element makes the validation
step raise (instead of repairing the element), and that error aborts the
whole run as a fatal extraction error when the page is in range: the run
ends in an error and no CSV write completes. -/
theorem c10_nondict_row_aborts_run (env : Env) (fs0 : List String) (i : Nat)
    (hk : apiKeyMissing env.apiKey = false) (hr : env.rasterOk = true)
    (h1 : 1 ≤ i) (h2 : i ≤ env.numPages)
    (xs : List JValue) (hresp : env.responses i = some (JValue.arr xs))
    (x : JValue) (hx : x ∈ xs) (hnobj : isObj x = false) :
    (∃ e, validateResults (JValue.arr xs) = Except.error e) ∧
    ∃ e, (processPdfDocument env fs0).result = Except.error e ∧
      (processPdfDocument env fs0).csvWritten = false := by
  obtain ⟨e0, he0⟩ := validateList_error_of_nonobj xs x hx hnobj
  refine ⟨⟨e0, he0⟩, ?_⟩
  have hbad : ∀ items, validateParsed (env.responses i) ≠ Except.ok items := by
    intro items hcon
    rw [hresp] at hcon
    have hcon' : validateList xs = Except.ok items := hcon
    rw [he0] at hcon'
    exact Except.noConfusion hcon'
  obtain ⟨e, calls, hE⟩ := extractPages_error_of_bad_page env i h1 h2 hbad
  rw [run_extract_error env fs0 hk hr e calls hE]
  exact ⟨e, rfl, rfl⟩

/-- A 1-page run whose response array holds a bare number instead of a
row object. -/
def envC10 : Env :=
  { apiKey := some "k", pdfPath := "doc.pdf", rasterOk := true,
    numPages := 1, responses := fun _ => some (JValue.arr [JValue.num 3]),
    tsImages := "t1", tsCsv := "t2" }

/-- C10 witness: the fatal non-dict-row property on the concrete run. -/
theorem c10_witness :
    (∃ e, validateResults (JValue.arr [JValue.num 3]) = Except.error e) ∧
    ∃ e, (processPdfDocument envC10 []).result = Except.error e ∧
      (processPdfDocument envC10 []).csvWritten = false :=
  c10_nondict_row_aborts_run envC10 [] 1 rfl rfl (by decide) (by decide)
    [JValue.num 3] rfl (JValue.num 3) (List.mem_singleton_self _) rfl
